import Mathlib

/-!
Verification of the rule-based Dockerfile analysis engine
(`docker_optimizer.py`) against its specification.

The engine is shallowly embedded: Python strings become `String`/`List Char`,
and the float arithmetic of the two estimators is modelled exactly — every
constant of the size model is a multiple of 0.01 GB, so sizes are integers in
scaled units (centi-GB; the percentage-scaled optimized values in 10⁻⁴ GB),
`int()` truncation on nonnegative values is natural-number division, and
`round(x, 1)` is exact round-half-to-even at one decimal (`rheDiv`).  Python
evaluates the same expressions in binary floating point, which agrees with
the exact values away from representation-error boundaries.  Every scanner is
an executable function (fuel-indexed where the recursion skips by a match
length), so all theorems evaluate on concrete inputs by `decide`/`rfl`.

Regular expressions of the source are embedded as dedicated character-list
matchers with Python `re` semantics (leftmost match, greedy/lazy quantifier
behaviour, non-overlapping `findall`/`finditer` continuation after each match).
-/

namespace DockerOpt

/-- Python `\s` (ASCII whitespace, as used by the Dockerfile patterns). -/
def wsChar (c : Char) : Bool :=
  c == ' ' || c == '\t' || c == '\n' || c == '\r' ||
    c == Char.ofNat 11 || c == Char.ofNat 12

/-- Elementwise ASCII lowercasing, Python `str.lower` on the ASCII range. -/
def lowChars (l : List Char) : List Char := l.map Char.toLower

def lowS (s : String) : List Char := lowChars s.toList

/-- `beginsWith p l` : `p` is an initial segment of `l`. -/
def beginsWith : List Char → List Char → Bool
  | [], _ => true
  | _ :: _, [] => false
  | p :: ps, c :: cs => p == c && beginsWith ps cs

/-- Python substring containment `needle in hay`. -/
def occursIn (p : List Char) : List Char → Bool
  | [] => beginsWith p []
  | l@(_ :: cs) => beginsWith p l || occursIn p cs

/-- Python `hay.find(needle)`: first match offset, `-1` when absent. -/
def strFind (p : List Char) : List Char → Int
  | [] => if beginsWith p [] then 0 else -1
  | l@(_ :: cs) =>
    if beginsWith p l then 0
    else
      let r := strFind p cs
      if r = -1 then -1 else r + 1

/-- Number of positions of `l` at which `p` occurs (the specification's
"number of occurrences", counting every start position). -/
def occCount (p : List Char) : List Char → Nat
  | [] => if beginsWith p [] then 1 else 0
  | l@(_ :: cs) => (if beginsWith p l then 1 else 0) + occCount p cs

/-- Fueled Python `len(re.findall(lit, text))` for a literal pattern:
scan left to right, on a match skip the whole match. -/
def findallCountF (p : List Char) : Nat → List Char → Nat
  | 0, _ => 0
  | _ + 1, [] => 0
  | f + 1, c :: cs =>
    if beginsWith p (c :: cs) then
      1 + findallCountF p f ((c :: cs).drop (p.length.max 1))
    else
      findallCountF p f cs

def findallCount (p l : List Char) : Nat := findallCountF p l.length l

/-- Raw substring test `needle in hay` on the raw text. -/
def inStr (needle hay : String) : Bool := occursIn needle.toList hay.toList

/-- Case-insensitive test `needle in hay.lower()` (needle given lowercase). -/
def inLower (needle hay : String) : Bool := occursIn needle.toList (lowS hay)

/-! ### Per-directive layer counts (`len(re.findall(r"\nRUN ", text))` etc.) -/

def runLayers (t : String) : Nat := findallCount "\nRUN ".toList t.toList
def copyLayers (t : String) : Nat := findallCount "\nCOPY ".toList t.toList
def addLayers (t : String) : Nat := findallCount "\nADD ".toList t.toList
def fromLayers (t : String) : Nat := findallCount "\nFROM ".toList t.toList

/-! ### The base-image regex `FROM\s+([^\s:]+):?([^\s]*)` (`re.search`) -/

/-- Try the base-image pattern at the current position; on success return
the two capture groups (image, tag). -/
def fromMatchAt (l : List Char) : Option (List Char × List Char) :=
  if beginsWith "FROM".toList l then
    let s := l.drop 4
    let w := (s.takeWhile wsChar).length
    if w = 0 then none
    else
      let s2 := s.drop w
      match s2 with
      | [] => none
      | c :: _ =>
        if wsChar c || c == ':' then none
        else
          let g1 := s2.takeWhile (fun ch => !wsChar ch && ch != ':')
          let s3 := s2.drop g1.length
          match s3 with
          | ':' :: s4 => some (g1, s4.takeWhile (fun ch => !wsChar ch))
          | _ => some (g1, [])
  else none

/-- `re.search`: first position at which the pattern matches. -/
def searchFrom : List Char → Option (List Char × List Char)
  | [] => none
  | l@(_ :: cs) =>
    match fromMatchAt l with
    | some r => some r
    | none => searchFrom cs

/-- Base image size in centi-GB (0.4 GB = 40, ..., 1.6 GB = 160): the ordered
first-match-wins family table of `enhanced_image_size_estimation` (groups
lowercased, default 1.0 GB = 100). -/
def baseSizeCenti (t : String) : ℕ :=
  match searchFrom t.toList with
  | none => 100
  | some (g1, g2) =>
    let bi := lowChars g1
    let bt := lowChars g2
    if occursIn "alpine".toList bi || occursIn "alpine".toList bt then 40
    else if occursIn "scratch".toList bi then 20
    else if occursIn "slim".toList bt then 70
    else if occursIn "ubuntu".toList bi then 130
    else if occursIn "debian".toList bi then 110
    else if occursIn "node".toList bi then
      (if occursIn "alpine".toList bt then 60 else 150)
    else if occursIn "python".toList bi then
      (if occursIn "alpine".toList bt then 70
       else if occursIn "slim".toList bt then 90 else 130)
    else if occursIn "golang".toList bi then
      (if occursIn "alpine".toList bt then 60 else 140)
    else if occursIn "openjdk".toList bi || occursIn "java".toList bi then
      (if occursIn "alpine".toList bt then 100 else 160)
    else 100

/-! ### Generic fueled scanners (Python `re.findall` / `re.finditer`) -/

/-- Fueled `finditer` positions: `step` returns a match length at the current
position; on a match the scan continues after it.  Returns `(start, length)`
pairs.  (All matchers below consume at least one character; the `max 1` only
guards termination.) -/
def scanPosF (step : List Char → Option Nat) : Nat → List Char → Nat → List (Nat × Nat)
  | 0, _, _ => []
  | _ + 1, [], _ => []
  | f + 1, c :: cs, i =>
    match step (c :: cs) with
    | some n => (i, n) :: scanPosF step f ((c :: cs).drop (n.max 1)) (i + n.max 1)
    | none => scanPosF step f cs (i + 1)

def scanPos (step : List Char → Option Nat) (l : List Char) : List (Nat × Nat) :=
  scanPosF step l.length l 0

/-- Fueled `findall` with one capture group: `step` returns the group and
the whole match length. -/
def scanGroupsF (step : List Char → Option (List Char × Nat)) :
    Nat → List Char → List (List Char)
  | 0, _ => []
  | _ + 1, [] => []
  | f + 1, c :: cs =>
    match step (c :: cs) with
    | some (g, n) => g :: scanGroupsF step f ((c :: cs).drop (n.max 1))
    | none => scanGroupsF step f cs

def scanGroups (step : List Char → Option (List Char × Nat)) (l : List Char) :
    List (List Char) :=
  scanGroupsF step l.length l

/-- Fueled Python `str.split()`: split on maximal whitespace runs, no empties. -/
def splitWsF : Nat → List Char → List (List Char)
  | 0, _ => []
  | _ + 1, [] => []
  | f + 1, c :: cs =>
    if wsChar c then splitWsF f cs
    else
      let wd := (c :: cs).takeWhile (fun ch => !wsChar ch)
      wd :: splitWsF f ((c :: cs).drop wd.length)

def splitWsAll (l : List Char) : List (List Char) := splitWsF l.length l

/-- Count of maximal runs of characters satisfying `p`
(`len(re.findall(r"[class]+", s))`). -/
def runsCountF (p : Char → Bool) : Nat → List Char → Nat
  | 0, _ => 0
  | _ + 1, [] => 0
  | f + 1, c :: cs =>
    if p c then
      let run := (c :: cs).takeWhile p
      1 + runsCountF p f ((c :: cs).drop run.length)
    else runsCountF p f cs

def runsCount (p : Char → Bool) (l : List Char) : Nat := runsCountF p l.length l

/-- Python `\w` plus `.` and `-`: the `[\w.-]+` token class of the source. -/
def wordish (c : Char) : Bool := c.isAlphanum || c == '_' || c == '.' || c == '-'

def tokenRuns (l : List Char) : Nat := runsCount wordish l

/-- The pattern `a\s+b` at the current position (e.g. `npm\s+install`):
the literal `a`, one or more whitespace, the literal `b`.  (Both literals
start with a non-whitespace character, so greedy `\s+` is deterministic.) -/
def kwSeqAt (a b : List Char) (l : List Char) : Option Nat :=
  if beginsWith a l then
    let s := l.drop a.length
    let w := (s.takeWhile wsChar).length
    if w = 0 then none
    else if beginsWith b (s.drop w) then some (a.length + w + b.length)
    else none
  else none

def hasKwSeq (a b : String) (l : List Char) : Bool :=
  !(scanPos (kwSeqAt a.toList b.toList) l).isEmpty

/-! ### `apt-get\s+install\s+[^&|;]+` over the lowercased text -/

/-- The apt-install clause pattern at the current position; returns the match
length.  After `install`, `\s+[^&|;]+` requires a whitespace character and
then extends the match through every character up to (excluding) the first of
`&`, `|`, `;` — at least two characters in total after `install`. -/
def aptInstallMatchAt (l : List Char) : Option Nat :=
  if beginsWith "apt-get".toList l then
    let s := l.drop 7
    let w := (s.takeWhile wsChar).length
    if w = 0 then none
    else
      let s2 := s.drop w
      if beginsWith "install".toList s2 then
        let s3 := s2.drop 7
        match s3 with
        | [] => none
        | c :: _ =>
          if wsChar c then
            let body := s3.takeWhile (fun ch => ch != '&' && ch != '|' && ch != ';')
            if 2 ≤ body.length then some (7 + w + 7 + body.length) else none
          else none
      else none
  else none

def aptInstallMatches (t : String) : List (List Char) :=
  (scanPos aptInstallMatchAt (lowS t)).map (fun pr => ((lowS t).drop pr.1).take pr.2)

/-- Python `list.index(x)` as an `Option`. -/
def pyIndexOf (x : List Char) : List (List Char) → Option Nat
  | [] => none
  | w :: ws =>
    if w = x then some 0
    else
      match pyIndexOf x ws with
      | some i => some (i + 1)
      | none => none

/-- Per matched clause: words after the word `install` that are not options
(do not start with `-`) and are not a lone backslash.  (`words.index` cannot
fail on a match of the pattern; absence is mapped to count 0.) -/
def aptPkgCountOf (m : List Char) : Nat :=
  let words := splitWsAll m
  match pyIndexOf "install".toList words with
  | some i =>
    ((words.drop (i + 1)).filter
      (fun wd => !beginsWith ['-'] wd && wd ≠ ['\\'])).length
  | none => 0

def aptPackageCount (t : String) : Nat :=
  ((aptInstallMatches t).map aptPkgCountOf).sum

/-! ### The remaining size-model features

All size constants of the source are exact multiples of 0.01 GB, so the
pre-round sizes are modelled exactly in integer centi-GB (1 centi-GB =
0.01 GB): 0.05 GB per apt package is 5, 0.2/0.4 GB for npm is 20/40,
0.25 + 0.3 per heavy package for pip is 25 + 30, 0.3 per large-data keyword
is 30, and 0.02 GB per layer is 2.  Python's float arithmetic approximates
these exact values. -/

def npmSizeCenti (t : String) : ℕ :=
  if inStr "package.json" t then
    if hasKwSeq "npm" "install" (lowS t) || hasKwSeq "yarn" "install" (lowS t) then
      if inLower "--production" t || inStr "NODE_ENV=production" t then 20 else 40
    else 0
  else 0

def heavyPkgs : List String :=
  ["tensorflow", "pytorch", "torch", "scipy", "pandas", "numpy", "scikit-learn"]

def pipSizeCenti (t : String) : ℕ :=
  if inStr "requirements.txt" t || hasKwSeq "pip" "install" (lowS t) then
    25 + (heavyPkgs.filter (fun p => inLower p t)).length * 30
  else 0

def largeDataPatterns : List String := ["data", "dataset", "images", "models", "assets"]

def largeDataSizeCenti (t : String) : ℕ :=
  (largeDataPatterns.filter (fun p => inLower p t)).length * 30

/-- The pre-round original image size in centi-GB. -/
def origSizeCenti (t : String) : ℕ :=
  baseSizeCenti t + aptPackageCount t * 5 + npmSizeCenti t + pipSizeCenti t +
    largeDataSizeCenti t + (runLayers t + copyLayers t + addLayers t) * 2

/-- Multi-stage detection of the size estimator:
`"as builder"`/`"as build"` in the lowercased text, or more than one
newline-prefixed `FROM` line. -/
def sizeMulti (t : String) : Bool :=
  inLower "as builder" t || inLower "as build" t || decide (1 < fromLayers t)

/-- `len(re.findall(r"COPY\s+--from", text))`. -/
def copyFromCount (t : String) : Nat :=
  (scanPos (kwSeqAt "COPY".toList "--from".toList) t.toList).length

def cacheCleanup (t : String) : Bool :=
  inStr "rm -rf" t &&
    (inStr "/var/cache" t || inStr "apt-get clean" t ||
      inStr "npm cache" t || inStr "pip cache" t)

def hasCombined (t : String) : Bool := inStr "&&" t

/-- The pre-round optimized image size, exactly, in units of 10^-4 GB: the
source multiplies the original size by 0.4, 0.6, the accumulated
(1 - reduction), or 0.7, so in centi-GB x 100 every branch is the integer
`origSizeCenti t * k` with `k` the percentage kept. -/
def optSizeTenK (t : String) : ℕ :=
  if sizeMulti t then
    if 0 < copyFromCount t then origSizeCenti t * 40 else origSizeCenti t * 60
  else
    let p : ℕ := (if cacheCleanup t then 10 else 0) + (if hasCombined t then 10 else 0)
    let o := origSizeCenti t * (100 - p)
    if origSizeCenti t * 70 < o then origSizeCenti t * 70 else o

/-- Round-half-to-even of the exact fraction `a / b` (Python `round` on the
exact value; Python rounds the nearest binary float instead, which agrees
away from exact-tie boundaries). -/
def rheDiv (a b : ℕ) : ℕ :=
  let q := a / b
  let r := a % b
  if 2 * r < b then q
  else if b < 2 * r then q + 1
  else if q % 2 = 0 then q else q + 1

/-- `enhanced_image_size_estimation`: (original, optimized), each the GB value
rounded to one decimal place and represented by its exact count of tenths of
a GB (`round(x, 1) = enhanced_image_size_estimation t . i / 10`). -/
def enhanced_image_size_estimation (t : String) : ℕ × ℕ :=
  (rheDiv (origSizeCenti t) 10, rheDiv (optSizeTenK t) 1000)

/-! ### The directive-command regex `KW\s+(.+?)(?:\n|$)` (findall, group 1) -/

/-- Largest index `w` with `1 ≤ w ≤ k` such that `s[w]` is not a newline
(backtracking of greedy `\s+` when the text ends inside the whitespace run). -/
def pickBelow (s : List Char) : Nat → Option Nat
  | 0 => none
  | k + 1 => if s.get? (k + 1) == some '\n' then pickBelow s k else some (k + 1)

/-- The pattern `kw\s+(.+?)(?:\n|$)` at the current position.  Greedy `\s+`
takes the maximal whitespace run when a non-whitespace character follows;
otherwise it backtracks to the last run position followed by a non-newline
character.  Lazy `(.+?)` then extends exactly to the next newline or the end.
Returns (captured group, whole match length, newline included when consumed). -/
def cmdMatchAt (kw : List Char) (l : List Char) : Option (List Char × Nat) :=
  if beginsWith kw l then
    let s := l.drop kw.length
    let W := (s.takeWhile wsChar).length
    if W = 0 then none
    else
      let wOpt := if (s.drop W).isEmpty then pickBelow s (W - 1) else some W
      match wOpt with
      | none => none
      | some w =>
        let g := (s.drop w).takeWhile (fun c => c != '\n')
        let nl := if (s.drop (w + g.length)).head? == some '\n' then 1 else 0
        some (g, kw.length + w + g.length + nl)
  else none

def runCmds (t : String) : List (List Char) := scanGroups (cmdMatchAt "RUN".toList) t.toList
def copyCmds (t : String) : List (List Char) := scanGroups (cmdMatchAt "COPY".toList) t.toList
def addCmds (t : String) : List (List Char) := scanGroups (cmdMatchAt "ADD".toList) t.toList

/-- Additive time cost of one RUN command (its content lowercased), the
keyword table of `enhanced_build_time_estimation`. -/
def runCmdCost (cmd0 : List Char) : Nat :=
  let cmd := lowChars cmd0
  (if occursIn "apt-get update".toList cmd then 15 else 0) +
  (if occursIn "apt-get install".toList cmd then min (10 + 2 * tokenRuns cmd) 60 else 0) +
  (if occursIn "npm install".toList cmd then
    (if occursIn "--production".toList cmd then 40 else 90) else 0) +
  (if occursIn "yarn install".toList cmd then
    (if occursIn "--production".toList cmd || occursIn "--frozen-lockfile".toList cmd
     then 35 else 80) else 0) +
  (if occursIn "pip install".toList cmd then
    (if occursIn "requirements.txt".toList cmd then 40
     else min (15 + 3 * tokenRuns cmd) 50) else 0) +
  (if occursIn "mysql".toList cmd || occursIn "postgres".toList cmd ||
      occursIn "mongodb".toList cmd then 20 else 0) +
  (if occursIn "make".toList cmd || occursIn "cmake".toList cmd ||
      occursIn "gcc".toList cmd || occursIn "build".toList cmd ||
      occursIn "compile".toList cmd then 60 else 0) +
  (if occursIn "wget".toList cmd || occursIn "curl".toList cmd then 15 else 0) +
  (if occursIn "tar".toList cmd || occursIn "unzip".toList cmd ||
      occursIn "gunzip".toList cmd then 10 else 0) +
  (if occursIn "git clone".toList cmd then
    25 + (if occursIn "depth=1".toList cmd then 0 else 15) else 0)

/-- Additive time cost of one ADD command (raw content, case-sensitive). -/
def addCmdCost (cmd : List Char) : Nat :=
  if occursIn "http://".toList cmd || occursIn "https://".toList cmd then 15
  else if occursIn ".tar".toList cmd || occursIn ".gz".toList cmd ||
      occursIn ".zip".toList cmd then 10
  else 5

/-- The original build time: 30 s baseline plus the per-command costs. -/
def origTime (t : String) : Nat :=
  30 + ((runCmds t).map runCmdCost).sum + 5 * (copyCmds t).length +
    ((addCmds t).map addCmdCost).sum

/-- `text.lower().find("requirements.txt") < text.lower().find("copy . .")`
or the same with `package.json` (`-1` when absent, as in the source). -/
def hasDependencyFirst (t : String) : Bool :=
  decide (strFind "requirements.txt".toList (lowS t) < strFind "copy . .".toList (lowS t)) ||
  decide (strFind "package.json".toList (lowS t) < strFind "copy . .".toList (lowS t))

def hasDockerignore (t : String) : Bool := inStr ".dockerignore" t

/-- Multi-stage detection of the time estimator. -/
def timeMulti (t : String) : Bool :=
  inLower "as builder" t || inLower "as build" t || decide (1 < fromLayers t)

/-- `enhanced_build_time_estimation`: (original, optimized) in whole seconds.
The accumulated reduction is tracked in percent; `int(x * (1 - r))` on a
nonnegative value is natural division by 100 in exact arithmetic. -/
def enhanced_build_time_estimation (t : String) : ℕ × ℕ :=
  let o := origTime t
  if timeMulti t then (o, o * 60 / 100)
  else
    let p : ℕ :=
      (if hasDependencyFirst t then 0 else 15) +
      (if hasDockerignore t then 0 else 10) +
      (if decide (3 < (runCmds t).length) && !inStr "&&" t then 15 else 0)
    let opt := o * (100 - p) / 100
    let cap := o * 80 / 100
    (o, if cap < opt then cap else opt)

/-! ### `validate_dockerfile` and the validation gate of `optimize_dockerfile` -/

structure ValidationIssues where
  critical : List String
  warnings : List String
  recommendations : List String
deriving DecidableEq

/-- `validate_dockerfile`: the validity flag is `critical == []`. -/
def validate_dockerfile (c : String) : Bool × ValidationIssues :=
  let crit :=
    (if inLower "curl | bash" c then ["Insecure pipe installation detected"] else []) ++
    (if inLower "root" c && !inLower "user " c then ["Running as root user detected"] else [])
  let warn :=
    (if inLower "latest" c then
      ["Using \x27latest\x27 tag is not recommended for production"] else []) ++
    (if inLower "apt-get upgrade" c then
      ["Avoid \x27apt-get upgrade\x27 without pinning versions"] else []) ++
    (if inLower "apt-get" c && !inLower "--no-cache" c then
      ["Missing --no-cache in apt-get commands"] else [])
  (crit.isEmpty, ⟨crit, warn, []⟩)

/-- The validation gate of `optimize_dockerfile` (lines 1080-1088): on a failed
validation a `ValueError("Dockerfile validation failed")` is raised before any
further work; the external AI-provider call that follows a successful
validation is out of the engine's scope and abstracted as a unit success. -/
def optimize_dockerfile (t : String) : Except String Unit :=
  if (validate_dockerfile t).1 then Except.ok ()
  else Except.error "Dockerfile validation failed"

/-! ### `generate_security_checklist` (the 7 fixed checks, in dict order) -/

def generate_security_checklist (t : String) : List (String × Bool) :=
  [("Non-root user configured", inLower "user " t),
   ("Specific version tags (no \x27latest\x27)", !inLower "latest" t),
   ("Curl piped to shell", !(inLower "curl" t && inLower " | " t)),
   ("Package cache cleanup",
     inLower "rm -rf /var/cache" t || inLower "apt-get clean" t ||
       inLower "npm cache clean" t || inLower "pip cache purge" t),
   ("Exposed ports properly managed", inLower "expose" t),
   ("Healthcheck configured", inLower "healthcheck" t),
   ("Multi-stage build",
     inLower "as builder" t || inLower "as build" t || inLower "--from=" t ||
       inLower "multi-stage" t || decide (1 < fromLayers t))]

/-! ### `cis_docker_benchmark_assessment` -/

/-- One benchmark item.  The free-text `description` display strings of the
source are omitted from the model: they are never branched on. -/
structure BenchItem where
  id : String
  title : String
  severity : String
deriving DecidableEq

structure Assessment where
  passed : List BenchItem
  failed : List BenchItem
  skipped : List BenchItem
deriving DecidableEq

def c41 (t : String) : Bool := inStr "USER " t && !inStr "USER root" t
def c42 (t : String) : Bool :=
  inStr "docker.io" t || inStr "gcr.io" t || inStr "quay.io" t ||
    inStr "mcr.microsoft.com" t || inStr "registry.access.redhat.com" t
def c43 (t : String) : Bool :=
  inStr "apk --no-cache" t || inStr "apt-get --no-install-recommends" t
def c44 (t : String) : Bool := !inStr "latest" t
def c46 (t : String) : Bool := inStr "HEALTHCHECK" t
def c47fail (t : String) : Bool :=
  inStr "apt-get update" t && !inStr "apt-get update &&" t
def c48 (t : String) : Bool := inStr "chmod -R" t && inStr "find / -perm" t
def c49fail (t : String) : Bool := inStr "ADD" t
def c410fail (t : String) : Bool :=
  inLower "password" t || inLower "secret" t || inLower "key" t ||
    inLower "token" t || inLower "auth" t || inLower "cred" t
def c411 (t : String) : Bool :=
  inStr "apt-get install" t && !inStr "--allow-unauthenticated" t

/-- The 11 sequential item placements of the source, written as ordered
concatenations (each item is appended to exactly one of the three lists,
in id order, exactly as the eleven if/else blocks do). -/
def cis_docker_benchmark_assessment (t : String) : Assessment :=
  { passed :=
      (if c41 t then [⟨"4.1", "Create a user for the container", "HIGH"⟩] else []) ++
      (if c42 t then [⟨"4.2", "Use trusted base images", "MEDIUM"⟩] else []) ++
      (if c43 t then [⟨"4.3", "Do not install unnecessary packages", "MEDIUM"⟩] else []) ++
      (if c44 t then [⟨"4.4", "Scan and rebuild images", "HIGH"⟩] else []) ++
      (if c46 t then [⟨"4.6", "Add HEALTHCHECK instruction", "MEDIUM"⟩] else []) ++
      (if c47fail t then [] else
        [⟨"4.7", "Do not use update instructions alone", "LOW"⟩]) ++
      (if c48 t then [⟨"4.8", "Remove setuid and setgid permissions", "HIGH"⟩] else []) ++
      (if c49fail t then [] else [⟨"4.9", "Use COPY instead of ADD", "LOW"⟩]) ++
      (if c410fail t then [] else
        [⟨"4.10", "Do not store secrets in Dockerfiles", "CRITICAL"⟩]) ++
      (if c411 t then [⟨"4.11", "Install verified packages", "MEDIUM"⟩] else []),
    failed :=
      (if c41 t then [] else [⟨"4.1", "Create a user for the container", "HIGH"⟩]) ++
      (if c43 t then [] else [⟨"4.3", "Do not install unnecessary packages", "MEDIUM"⟩]) ++
      (if c44 t then [] else [⟨"4.4", "Avoid using \x27latest\x27 tag", "HIGH"⟩]) ++
      (if c46 t then [] else [⟨"4.6", "Add HEALTHCHECK instruction", "MEDIUM"⟩]) ++
      (if c47fail t then [⟨"4.7", "Do not use update instructions alone", "LOW"⟩] else []) ++
      (if c49fail t then [⟨"4.9", "Use COPY instead of ADD", "LOW"⟩] else []) ++
      (if c410fail t then
        [⟨"4.10", "Do not store secrets in Dockerfiles", "CRITICAL"⟩] else []),
    skipped :=
      (if c42 t then [] else [⟨"4.2", "Use trusted base images", "MEDIUM"⟩]) ++
      [⟨"4.5", "Enable content trust for Docker", "MEDIUM"⟩] ++
      (if c48 t then [] else [⟨"4.8", "Remove setuid and setgid permissions", "HIGH"⟩]) ++
      (if c411 t then [] else [⟨"4.11", "Install verified packages", "MEDIUM"⟩]) }

/-! ### `analyze_environment_differences` -/

structure EnvSide where
  size : String
  buildTime : String
  layers : String
  features : List String
  recommendations : List String
deriving DecidableEq

structure EnvAnalysis where
  development : EnvSide
  production : EnvSide
deriving DecidableEq

def hasDevMode (t : String) : Bool := inLower "development" t || inLower "dev" t
def hasProdMode (t : String) : Bool := inLower "production" t || inLower "prod" t
def hasDevDeps (t : String) : Bool := inStr "devDependencies" t || inStr "--dev" t

def debugTools : List String :=
  ["vim", "nano", "curl", "wget", "telnet", "netcat", "nc", "strace", "gdb", "valgrind"]

def hasDebugTools (t : String) : Bool := debugTools.any (fun d => inLower d t)

def hasEnvSpecific (t : String) : Bool :=
  inStr "if [ \"$NODE_ENV\" = \"production\" ]" t || inStr "ARG ENV" t

def envIsMultiStage (t : String) : Bool := decide (1 < fromLayers t)

/-- The rule-order feature/recommendation appends of the source, then the
default filler when a side detected fewer than 2 features.  (The source also
extracts `ENV` variables into an unused local `node_env`; having no effect on
the result, that dead computation is not modelled.) -/
def analyze_environment_differences (t : String) : EnvAnalysis :=
  let devF0 :=
    (if hasDebugTools t then ["Debug tools included"] else []) ++
    (if hasDevDeps t then ["Development dependencies installed"] else []) ++
    (if hasEnvSpecific t then ["Environment-specific conditional logic"] else []) ++
    (if hasDevMode t && hasProdMode t then
      ["Combined dev/prod Dockerfile with environment detection"] else [])
  let devR0 :=
    (if hasEnvSpecific t then [] else
      ["Add environment-specific conditional logic (ARG ENV)"]) ++
    (if hasDevMode t && hasProdMode t then []
     else if hasEnvSpecific t then []
     else ["Consider separate Dockerfiles (Dockerfile.dev and Dockerfile.prod)"])
  let prodF0 :=
    (if hasEnvSpecific t then ["Environment-specific optimizations"] else []) ++
    (if envIsMultiStage t then ["Uses multi-stage build for minimal image size"] else []) ++
    (if hasDevMode t && hasProdMode t then
      ["Combined dev/prod Dockerfile with environment detection"] else [])
  let prodR0 :=
    (if hasDebugTools t then ["Remove debugging tools in production"] else []) ++
    (if hasDevDeps t then ["Use --production flag for npm/yarn in production"] else []) ++
    (if hasEnvSpecific t then [] else
      ["Use build arguments to create optimized production builds"]) ++
    (if envIsMultiStage t then [] else ["Implement multi-stage build for production"]) ++
    (if hasDevMode t && hasProdMode t then []
     else if hasEnvSpecific t then []
     else ["Consider separate Dockerfiles (Dockerfile.dev and Dockerfile.prod)"])
  { development :=
      { size := "larger", buildTime := "longer", layers := "more",
        features :=
          if devF0.length < 2 then devF0 ++ ["Standard build process"] else devF0,
        recommendations :=
          if devF0.length < 2 then
            devR0 ++ ["Add dev-specific tools and dependencies"] else devR0 },
    production :=
      { size := "optimized", buildTime := "faster", layers := "fewer",
        features :=
          if prodF0.length < 2 then prodF0 ++ ["Standard build process"] else prodF0,
        recommendations :=
          if prodF0.length < 2 then
            prodR0 ++ ["Optimize for size and security"] else prodR0 } }

/-! ### `detect_hardcoded_secrets`: the 13 regex patterns as matchers

Each matcher works in "remaining input" style; `toLenMatcher` converts it to
a match length for the `finditer` scan. -/

/-- The apostrophe character (`'`). -/
def squote : Char := Char.ofNat 39

/-- Case-insensitive literal (pattern given lowercase), Python `(?i)`. -/
def matchLitCI : List Char → List Char → Option (List Char)
  | [], l => some l
  | _ :: _, [] => none
  | p :: ps, c :: cs => if c.toLower == p then matchLitCI ps cs else none

/-- The common tail `\s*=\s*['\"][^'"]+['\"]` of the assignment patterns:
greedy `[^'"]+` runs to the first quote of either kind, which must exist and
must be preceded by at least one non-quote character. -/
def matchAssign (l : List Char) : Option (List Char) :=
  match l.dropWhile wsChar with
  | '=' :: rest =>
    match rest.dropWhile wsChar with
    | q :: r2 =>
      if q == squote || q == '"' then
        let v := r2.takeWhile (fun c => c != squote && c != '"')
        if v.isEmpty then none
        else
          match r2.drop v.length with
          | q2 :: r3 => if q2 == squote || q2 == '"' then some r3 else none
          | [] => none
      else none
    | [] => none
  | _ => none

/-- Optional `[-_]?` separator followed by continuation `k`.  (The literals
that follow never start with `-` or `_`, so greedy-with-backtracking reduces
to this case split.) -/
def sepOpt (k : List Char → Option (List Char)) : List Char → Option (List Char)
  | [] => k []
  | c :: cs => if c == '-' || c == '_' then k cs else k (c :: cs)

def toLenMatcher (m : List Char → Option (List Char)) (l : List Char) : Option Nat :=
  (m l).map (fun rest => l.length - rest.length)

/-- `(?i)kw\s*=\s*['\"][^'"]+['\"]` for a plain keyword `kw`. -/
def kwAssignM (kw : String) (l : List Char) : Option Nat :=
  toLenMatcher (fun s => (matchLitCI kw.toList s).bind matchAssign) l

/-- `(?i)api[-_]?key\s*=\s*...`-style: two literal parts with `[-_]?`. -/
def kwSepAssignM (a b : String) (l : List Char) : Option Nat :=
  toLenMatcher
    (fun s => (matchLitCI a.toList s).bind
      (sepOpt (fun s2 => (matchLitCI b.toList s2).bind matchAssign))) l

/-- `(?i)aws[-_]?x[-_]?y[-_]?z\s*=\s*...`-style: four literal parts. -/
def kwSep4AssignM (a b c d : String) (l : List Char) : Option Nat :=
  toLenMatcher
    (fun s => (matchLitCI a.toList s).bind
      (sepOpt (fun s2 => (matchLitCI b.toList s2).bind
        (sepOpt (fun s3 => (matchLitCI c.toList s3).bind
          (sepOpt (fun s4 => (matchLitCI d.toList s4).bind matchAssign))))))) l

/-- `(?i)jdbc:.*password=\w+`: greedy `.*` stays on the line and backtracks
to the last position followed by `password=` and at least one word character;
the final `\w+` is greedy. -/
def jdbcM (l : List Char) : Option Nat :=
  match matchLitCI "jdbc:".toList l with
  | none => none
  | some rest =>
    let line := rest.takeWhile (fun c => c != '\n')
    let valid : Nat → Bool := fun j =>
      match matchLitCI "password=".toList (rest.drop j) with
      | some r2 => !(r2.takeWhile wordish).isEmpty
      | none => false
    match ((List.range (line.length + 1)).filter valid).max? with
    | none => none
    | some j =>
      let r2 := rest.drop (j + 9)
      some (5 + j + 9 + (r2.takeWhile wordish).length)

/-- `(?i)mongodb://[^:]+:[^@]+@`: up to the first `:`, then up to the first
`@`, both nonempty. -/
def mongoM (l : List Char) : Option Nat :=
  match matchLitCI "mongodb://".toList l with
  | none => none
  | some rest =>
    let u := rest.takeWhile (fun c => c != ':')
    if u.isEmpty then none
    else
      match rest.drop u.length with
      | ':' :: r2 =>
        let p := r2.takeWhile (fun c => c != '@')
        if p.isEmpty then none
        else
          match r2.drop p.length with
          | '@' :: _ => some (10 + u.length + 1 + p.length + 1)
          | _ => none
      | _ => none

def b64Char (c : Char) : Bool := c.isAlphanum && c != '_' || c == '+' || c == '/'

/-- `(?i)base64:[a-zA-Z0-9+/]{30,}` (greedy, at least 30 class characters). -/
def base64M (l : List Char) : Option Nat :=
  match matchLitCI "base64:".toList l with
  | none => none
  | some rest =>
    let run := rest.takeWhile b64Char
    if 30 ≤ run.length then some (7 + run.length) else none

/-- The fixed ordered pattern table of `detect_hardcoded_secrets`. -/
def secretPatterns : List ((List Char → Option Nat) × String) :=
  [(kwAssignM "password", "Password"),
   (kwAssignM "passwd", "Password"),
   (kwAssignM "pwd", "Password"),
   (kwAssignM "secret", "Secret"),
   (kwAssignM "token", "Token"),
   (kwSepAssignM "api" "key", "API Key"),
   (kwSepAssignM "auth" "token", "Auth Token"),
   (kwAssignM "credentials", "Credentials"),
   (kwSep4AssignM "aws" "access" "key" "id", "AWS Access Key"),
   (kwSep4AssignM "aws" "secret" "access" "key", "AWS Secret Key"),
   (jdbcM, "Database Connection String"),
   (mongoM, "MongoDB Connection String"),
   (base64M, "Base64 Encoded Value")]

/-- One finding: 1-based line, classified type, 1-based column.  The matched
secret value itself is not part of the record. -/
structure SecretFinding where
  line : Nat
  type : String
  column : Int
deriving DecidableEq

/-- `text.rfind("\n", 0, k)` as used for the column: the last newline offset
before position `k`, `-1` when there is none. -/
def lastNlBefore (l : List Char) (k : Nat) : Int :=
  (List.range k).foldl (fun acc i => if l.get? i == some '\n' then (i : Int) else acc) (-1)

def findingsOf (l : List Char) (m : List Char → Option Nat) (ty : String) :
    List SecretFinding :=
  (scanPos m l).map (fun pr =>
    ⟨(l.take pr.1).count '\n' + 1, ty, (pr.1 : Int) - lastNlBefore l pr.1⟩)

def detect_hardcoded_secrets (t : String) : List SecretFinding :=
  (secretPatterns.map (fun pr => findingsOf t.toList pr.1 pr.2)).foldr (· ++ ·) []

/-! ## Helper lemmas -/

lemma beginsWith_iff_append {p l : List Char} (h : beginsWith p l = true) :
    l = p ++ l.drop p.length := by
  induction p generalizing l with
  | nil => simp
  | cons a as ih =>
    cases l with
    | nil => simp [beginsWith] at h
    | cons c cs =>
      simp only [beginsWith, Bool.and_eq_true, beq_iff_eq] at h
      obtain ⟨rfl, h2⟩ := h
      simpa using ih h2

lemma beginsWith_cons_ne {a : Char} {as : List Char} {c : Char} {cs : List Char}
    (h : c ≠ a) : beginsWith (a :: as) (c :: cs) = false := by
  unfold beginsWith
  have hac : (a == c) = false := beq_eq_false_iff_ne.mpr (Ne.symm h)
  rw [hac, Bool.false_and]

lemma occCount_cons (p : List Char) (c : Char) (cs : List Char) :
    occCount p (c :: cs) =
      (if beginsWith p (c :: cs) then 1 else 0) + occCount p cs := rfl

lemma findallCountF_cons (p : List Char) (f : Nat) (c : Char) (cs : List Char) :
    findallCountF p (f + 1) (c :: cs) =
      if beginsWith p (c :: cs) then
        1 + findallCountF p f ((c :: cs).drop (p.length.max 1))
      else findallCountF p f cs := rfl

/-- Occurrences of a pattern `a :: as` in `d ++ rest` are occurrences in
`rest` when no character of `d` equals the pattern's head. -/
lemma occCount_append_of_ne {a : Char} {as : List Char} (d rest : List Char)
    (hd : ∀ x ∈ d, x ≠ a) :
    occCount (a :: as) (d ++ rest) = occCount (a :: as) rest := by
  induction d with
  | nil => rfl
  | cons x d' ih =>
    rw [List.cons_append, occCount_cons,
      beginsWith_cons_ne (hd x (List.mem_cons_self x d'))]
    simp [ih (fun y hy => hd y (List.mem_cons_of_mem _ hy))]

/-- For a pattern whose head character does not reappear in its tail, the
non-overlapping left-to-right `findall` count equals the number of occurrence
positions. -/
lemma findallCountF_eq_occCount {a : Char} {as : List Char} (ha : a ∉ as) :
    ∀ (fuel : Nat) (l : List Char), l.length ≤ fuel →
      findallCountF (a :: as) fuel l = occCount (a :: as) l := by
  intro fuel
  induction fuel with
  | zero =>
    intro l hl
    obtain rfl : l = [] := List.length_eq_zero.mp (Nat.le_zero.mp hl)
    simp [findallCountF, occCount, beginsWith]
  | succ f ih =>
    intro l hl
    cases l with
    | nil => simp [findallCountF, occCount, beginsWith]
    | cons c cs =>
      simp only [List.length_cons] at hl
      rw [findallCountF_cons, occCount_cons]
      by_cases hb : beginsWith (a :: as) (c :: cs) = true
      · have hlen : (a :: as).length.max 1 = as.length + 1 := by
          simp only [List.length_cons]
          exact Nat.max_eq_left (Nat.succ_le_succ (Nat.zero_le _))
        have hcs : cs = as ++ cs.drop as.length := by
          have h := beginsWith_iff_append hb
          simp only [List.length_cons, List.cons_append, List.drop_succ_cons] at h
          exact (List.cons.inj h).2
        have hdroplen : (cs.drop as.length).length ≤ f := by
          simp only [List.length_drop]
          omega
        rw [if_pos hb, if_pos hb, hlen, List.drop_succ_cons, ih _ hdroplen]
        conv_rhs => rw [hcs]
        rw [occCount_append_of_ne as _
          (fun x hx hxa => ha (by rw [← hxa]; exact hx))]
      · rw [if_neg hb, if_neg hb, ih cs (by omega)]
        simp

lemma beginsWith_map (f : Char → Char) :
    ∀ {p l : List Char}, beginsWith p l = true →
      beginsWith (p.map f) (l.map f) = true := by
  intro p
  induction p with
  | nil => intro l _; simp [beginsWith]
  | cons a as ih =>
    intro l h
    cases l with
    | nil => simp [beginsWith] at h
    | cons c cs =>
      simp only [beginsWith, Bool.and_eq_true, beq_iff_eq] at h
      obtain ⟨rfl, h2⟩ := h
      simpa [beginsWith] using ih h2

lemma occursIn_map (f : Char → Char) :
    ∀ {p l : List Char}, occursIn p l = true →
      occursIn (p.map f) (l.map f) = true := by
  intro p l
  induction l with
  | nil =>
    intro h
    simp only [occursIn] at h ⊢
    exact beginsWith_map f h
  | cons c cs ih =>
    intro h
    simp only [occursIn, Bool.or_eq_true] at h ⊢
    rcases h with h | h
    · exact Or.inl (beginsWith_map f h)
    · exact Or.inr (ih h)

/-! ## Positivity of the pre-round original size -/

set_option maxHeartbeats 1600000 in
lemma baseSizeCenti_ge (t : String) : 20 ≤ baseSizeCenti t := by
  unfold baseSizeCenti
  cases searchFrom t.toList with
  | none => norm_num
  | some g =>
    obtain ⟨g1, g2⟩ := g
    simp only
    split_ifs <;> norm_num

lemma origSizeCenti_pos (t : String) : 0 < origSizeCenti t := by
  have h1 := baseSizeCenti_ge t
  unfold origSizeCenti
  omega

/-- Filler shape of the environment features lists: appending one default
entry when fewer than 2 were detected leaves at least one entry. -/
lemma filler_len_ge_one (l : List String) (x : String) :
    1 ≤ (if l.length < 2 then l ++ [x] else l).length := by
  split_ifs with h
  · simp
  · omega

lemma findallCount_eq_occCount {a : Char} {as : List Char} (ha : a ∉ as)
    (l : List Char) : findallCount (a :: as) l = occCount (a :: as) l :=
  findallCountF_eq_occCount ha l.length l le_rfl

/-! ## The claims -/

/-- C9: the per-directive counts used by the estimators (`runLayers`,
`copyLayers`, `addLayers`, `fromLayers`, i.e. `len(re.findall(r"\nRUN ", t))`
etc.) equal the number of occurrences of the newline-prefixed patterns
`\nRUN `, `\nCOPY `, `\nADD `, `\nFROM ` in the text (the non-overlapping
findall scan counts exactly the occurrence positions, the patterns having no
self-overlap); consequently a directive on the very first line is not counted:
`"FROM a\nFROM b"` has two FROM lines but a count of 1, so the `> 1` FROM
multi-stage test is false on it. -/
theorem directive_counts_newline_anchored :
    (∀ t : String, runLayers t = occCount "\nRUN ".toList t.toList) ∧
    (∀ t : String, copyLayers t = occCount "\nCOPY ".toList t.toList) ∧
    (∀ t : String, addLayers t = occCount "\nADD ".toList t.toList) ∧
    (∀ t : String, fromLayers t = occCount "\nFROM ".toList t.toList) ∧
    fromLayers "FROM a\nFROM b" = 1 ∧
    ¬(1 < fromLayers "FROM a\nFROM b") := by
  refine ⟨fun t => ?_, fun t => ?_, fun t => ?_, fun t => ?_, by decide, by decide⟩
  · exact findallCount_eq_occCount (by decide) t.toList
  · exact findallCount_eq_occCount (by decide) t.toList
  · exact findallCount_eq_occCount (by decide) t.toList
  · exact findallCount_eq_occCount (by decide) t.toList

/-- C8: on the input `password = "abc123"` the secret scanner reports exactly
one finding, of type "Password", at line 1 (and column 1); the finding record
carries only line, type and column, and the secret value `abc123` does not
occur in the reported type string. -/
theorem secret_scan_password_single_finding :
    detect_hardcoded_secrets "password = \"abc123\"" = [⟨1, "Password", 1⟩] ∧
    occursIn "abc123".toList "Password".toList = false := by decide

/-- C7 (amended): each side's features list contains at least 1 entry — a
single default filler entry is appended to a side whenever fewer than 2
features were detected, so a side can end with exactly one entry. -/
theorem env_features_at_least_one (t : String) :
    1 ≤ (analyze_environment_differences t).development.features.length ∧
    1 ≤ (analyze_environment_differences t).production.features.length :=
  ⟨filler_len_ge_one _ _, filler_len_ge_one _ _⟩

/-- C7 counterexample: on the empty text no feature is detected on either
side, the filler appends one entry, and both features lists have length 1 —
not the at least 2 entries the claim asserts. -/
theorem env_features_filler_single_on_empty :
    (analyze_environment_differences "").development.features.length = 1 ∧
    (analyze_environment_differences "").production.features.length = 1 ∧
    ¬(2 ≤ (analyze_environment_differences "").development.features.length) := by
  decide

/-- C4 (amended): on `FROM node:16-alpine` the size estimator takes the
alpine branch — the alpine-substring test (which also inspects the tag)
precedes the node-family branch in the first-match-wins chain — returning an
original size of 0.4 GB (4 tenths; optimized 0.3 GB), and the build-time
estimator returns exactly the default original time of 30 seconds. -/
theorem node16_alpine_example_values :
    baseSizeCenti "FROM node:16-alpine" = 40 ∧
    enhanced_image_size_estimation "FROM node:16-alpine" = (4, 3) ∧
    (enhanced_build_time_estimation "FROM node:16-alpine").1 = 30 := by decide

/-- C4 counterexample: on `FROM node:16-alpine` the returned original size is
0.4 GB (4 tenths), not the approximately 0.6 GB (6 tenths) of the claimed
node+alpine branch, which is unreachable for alpine-containing tags. -/
theorem node16_alpine_not_node_branch :
    (enhanced_image_size_estimation "FROM node:16-alpine").1 = 4 ∧
    ¬((enhanced_image_size_estimation "FROM node:16-alpine").1 = 6) := by decide

/-- C2 (amended): validation fails exactly on the literal substring
`curl | bash` (case-insensitively): any text containing it is invalid with
the critical issue "Insecure pipe installation detected", and
`optimize_dockerfile` raises the validation error before any estimation. -/
theorem validate_rejects_literal_curl_pipe_bash (t : String)
    (h : inLower "curl | bash" t = true) :
    (validate_dockerfile t).1 = false ∧
    "Insecure pipe installation detected" ∈ (validate_dockerfile t).2.critical ∧
    optimize_dockerfile t = Except.error "Dockerfile validation failed" := by
  have hcrit : (validate_dockerfile t).1 = false ∧
      "Insecure pipe installation detected" ∈ (validate_dockerfile t).2.critical := by
    unfold validate_dockerfile
    simp [h]
  refine ⟨hcrit.1, hcrit.2, ?_⟩
  unfold optimize_dockerfile
  simp [hcrit.1]

/-- C2 witness: `RUN curl | bash` contains the literal pattern, fails
validation and makes `optimize_dockerfile` raise. -/
theorem validate_rejects_literal_curl_pipe_bash_witness :
    inLower "curl | bash" "RUN curl | bash" = true ∧
    ((validate_dockerfile "RUN curl | bash").1 = false ∧
      "Insecure pipe installation detected" ∈
        (validate_dockerfile "RUN curl | bash").2.critical ∧
      optimize_dockerfile "RUN curl | bash" =
        Except.error "Dockerfile validation failed") :=
  ⟨by decide, validate_rejects_literal_curl_pipe_bash "RUN curl | bash" (by decide)⟩

/-- C2 counterexample: `curl http://x | bash` — the claim's own example of an
insecure pipe install — does not contain the literal substring `curl | bash`:
validation succeeds with no critical issue, and `optimize_dockerfile`
proceeds instead of raising a validation error. -/
theorem validate_accepts_curl_http_pipe_bash :
    (validate_dockerfile "curl http://x | bash").1 = true ∧
    (validate_dockerfile "curl http://x | bash").2.critical = [] ∧
    optimize_dockerfile "curl http://x | bash" = Except.ok () :=
  ⟨by decide, by decide, by rfl⟩

/-- C3 (confirmed): when no multi-stage build is detected, the accumulated
10%+10% reduction never reaches the 30% floor, so the pre-round optimized
size is always exactly 70% of — in particular no more than 70% of — the
pre-round original, and the returned pair is both values rounded to one
decimal place (`rheDiv … 10` / `rheDiv … 1000` are that rounding on the
exact centi-GB and 10⁻⁴-GB representations). -/
theorem size_nonmultistage_min_30pct_reduction (t : String)
    (h : sizeMulti t = false) :
    optSizeTenK t = origSizeCenti t * 70 ∧
    optSizeTenK t ≤ 70 * origSizeCenti t ∧
    enhanced_image_size_estimation t =
      (rheDiv (origSizeCenti t) 10, rheDiv (optSizeTenK t) 1000) := by
  have hpos := origSizeCenti_pos t
  have heq : optSizeTenK t = origSizeCenti t * 70 := by
    unfold optSizeTenK
    simp only [h, Bool.false_eq_true, if_false]
    split_ifs <;> omega
  refine ⟨heq, ?_, rfl⟩
  rw [heq]
  omega

/-- C3 witness at `FROM ubuntu` (no multi-stage markers). -/
theorem size_nonmultistage_min_30pct_reduction_witness :
    sizeMulti "FROM ubuntu" = false ∧
    (optSizeTenK "FROM ubuntu" = origSizeCenti "FROM ubuntu" * 70 ∧
     optSizeTenK "FROM ubuntu" ≤ 70 * origSizeCenti "FROM ubuntu" ∧
     enhanced_image_size_estimation "FROM ubuntu" =
       (rheDiv (origSizeCenti "FROM ubuntu") 10,
        rheDiv (optSizeTenK "FROM ubuntu") 1000)) :=
  ⟨by decide, size_nonmultistage_min_30pct_reduction "FROM ubuntu" (by decide)⟩

/-- C1 (amended): when no multi-stage build is detected the estimator
accumulates the 15%/10%/15% reduction fractions and then enforces a MINIMUM
20% reduction: the returned optimized time is at most `⌊80% of original⌋`
(and at least `⌊60% of original⌋`, the accumulated reduction never exceeding
40%) — not "at least 80% of the original" as the claim states. -/
theorem build_time_nonmultistage_reduction_bounds (t : String)
    (h : timeMulti t = false) :
    (enhanced_build_time_estimation t).1 = origTime t ∧
    origTime t * 60 / 100 ≤ (enhanced_build_time_estimation t).2 ∧
    (enhanced_build_time_estimation t).2 ≤ origTime t * 80 / 100 := by
  unfold enhanced_build_time_estimation
  simp only [h, Bool.false_eq_true, if_false]
  refine ⟨?_, ?_, ?_⟩
  · simp
  · split_ifs <;> omega
  · split_ifs <;> omega

/-- C1 witness at the empty text (no multi-stage markers): the estimation is
(30, 22) and indeed 18 = ⌊30·0.6⌋ ≤ 22 ≤ ⌊30·0.8⌋ = 24. -/
theorem build_time_nonmultistage_reduction_bounds_witness :
    timeMulti "" = false ∧
    ((enhanced_build_time_estimation "").1 = origTime "" ∧
     origTime "" * 60 / 100 ≤ (enhanced_build_time_estimation "").2 ∧
     (enhanced_build_time_estimation "").2 ≤ origTime "" * 80 / 100) :=
  ⟨by decide, build_time_nonmultistage_reduction_bounds "" (by decide)⟩

/-- C1 counterexample: on the empty text (no multi-stage detected) the result
is (30, 22): the optimized time is 22 < 24 = 80% of 30, refuting "the
returned optimized time is always at least 80% of the returned original
time" (optimized·5 ≥ original·4 fails). -/
theorem build_time_cap_is_minimum_not_maximum :
    timeMulti "" = false ∧
    enhanced_build_time_estimation "" = (30, 22) ∧
    ¬((enhanced_build_time_estimation "").1 * 4 ≤
        (enhanced_build_time_estimation "").2 * 5) := by decide

/-- C6 (amended): for every text whose LOWERCASED form does not contain
`healthcheck`, the checklist entry "Healthcheck configured" is false and
benchmark item 4.6 is placed in the failed list.  (The checklist test is
case-insensitive, so mere absence of the exact substring `HEALTHCHECK` is
not enough for the checklist half of the claim.) -/
theorem no_healthcheck_fails_checks (t : String)
    (h : inLower "healthcheck" t = false) :
    (generate_security_checklist t).lookup "Healthcheck configured" = some false ∧
    "4.6" ∈ (cis_docker_benchmark_assessment t).failed.map BenchItem.id := by
  have hH : inStr "HEALTHCHECK" t = false := by
    cases hHt : inStr "HEALTHCHECK" t with
    | false => rfl
    | true =>
      exfalso
      have h2 := occursIn_map Char.toLower hHt
      have h3 : "HEALTHCHECK".toList.map Char.toLower = "healthcheck".toList := by
        decide
      rw [h3] at h2
      have h4 : occursIn "healthcheck".toList (t.toList.map Char.toLower) = false := h
      exact Bool.noConfusion (h4.symm.trans h2)
  constructor
  · have hlk : (generate_security_checklist t).lookup "Healthcheck configured" =
        some (inLower "healthcheck" t) := rfl
    rw [hlk, h]
  · have h46 : c46 t = false := hH
    unfold cis_docker_benchmark_assessment
    simp [h46]

/-- C6 witness at `FROM x` (no healthcheck in any case). -/
theorem no_healthcheck_fails_checks_witness :
    inLower "healthcheck" "FROM x" = false ∧
    ((generate_security_checklist "FROM x").lookup "Healthcheck configured" =
        some false ∧
      "4.6" ∈ (cis_docker_benchmark_assessment "FROM x").failed.map BenchItem.id) :=
  ⟨by decide, no_healthcheck_fails_checks "FROM x" (by decide)⟩

/-- C6 counterexample: the text `healthcheck` does not contain the substring
`HEALTHCHECK`, yet the checklist entry "Healthcheck configured" is true (the
checklist matches case-insensitively), refuting the claim as stated. -/
theorem lowercase_healthcheck_defeats_claim :
    occursIn "HEALTHCHECK".toList "healthcheck".toList = false ∧
    (generate_security_checklist "healthcheck").lookup "Healthcheck configured" =
      some true ∧
    ¬((generate_security_checklist "healthcheck").lookup "Healthcheck configured" =
        some false) := by decide

set_option maxHeartbeats 8000000 in
/-- C5: for every input text the benchmark assessment places exactly the 11
fixed item ids 4.1–4.11 across the three lists: the ids of
`passed ++ failed ++ skipped` are a permutation of [4.1, …, 4.11], so each id
lands in exactly one list, none duplicated or omitted. -/
theorem benchmark_ids_partition_all_11 (t : String) :
    List.Perm
      ((cis_docker_benchmark_assessment t).passed.map BenchItem.id ++
        (cis_docker_benchmark_assessment t).failed.map BenchItem.id ++
        (cis_docker_benchmark_assessment t).skipped.map BenchItem.id)
      ["4.1", "4.2", "4.3", "4.4", "4.5", "4.6", "4.7", "4.8", "4.9", "4.10",
        "4.11"] := by
  unfold cis_docker_benchmark_assessment
  simp only
  split_ifs <;> decide

set_option maxHeartbeats 4000000 in
/-- C10: benchmark items 4.2 (trusted base images), 4.5 (content trust),
4.8 (setuid/setgid removal) and 4.11 (verified packages) are never placed in
the failed list, for any input text: each occurs zero times among the failed
ids (each either passes or is skipped, so these items can only raise the
compliance score or leave it unchanged, never lower it). -/
theorem benchmark_protected_items_never_fail (t : String) :
    List.count "4.2" ((cis_docker_benchmark_assessment t).failed.map BenchItem.id) = 0 ∧
    List.count "4.5" ((cis_docker_benchmark_assessment t).failed.map BenchItem.id) = 0 ∧
    List.count "4.8" ((cis_docker_benchmark_assessment t).failed.map BenchItem.id) = 0 ∧
    List.count "4.11" ((cis_docker_benchmark_assessment t).failed.map BenchItem.id) = 0 := by
  unfold cis_docker_benchmark_assessment
  simp only
  split_ifs <;> decide

end DockerOpt
